import Mathlib

/-!
Verification development for the `peruanita_bank_import` Odoo module
(`src/models/bank_import.py`, `src/wizards/bank_import_wizard.py`).

The Python source is shallowly embedded: every model method that the claims
touch becomes an executable Lean function over explicit state; Python floats
become `ℚ`, Python strings become `String` manipulated through structural
`List Char` helpers (so that everything reduces in the kernel), exceptions
become `Option`/`Except`, and Odoo record sets become lists.
-/

namespace PeruanitaBank

/-! ## Python-style string primitives (modelled over `List Char`) -/

/-- Characters Python's `str.strip()` removes. -/
def pyIsSpace (c : Char) : Bool :=
  c == ' ' || c == '\t' || c == '\n' || c == '\r' || c == '\x0b' || c == '\x0c'

/-- Strip characters satisfying `p` from both ends of a char list. -/
def trimListBy (p : Char → Bool) (cs : List Char) : List Char :=
  ((cs.dropWhile p).reverse.dropWhile p).reverse

/-- Model of Python `str.strip()`. -/
def pyStrip (s : String) : String :=
  String.mk (trimListBy pyIsSpace s.data)

/-- Model of Python `str.strip('"')`. -/
def stripQuotes (s : String) : String :=
  String.mk (trimListBy (fun c => c == '"') s.data)

/-- Model of Python `str.lower()` (ASCII data in this module). -/
def pyLower (s : String) : String :=
  String.mk (s.data.map Char.toLower)

/-- Model of Python `str.upper()` (ASCII data in this module). -/
def pyUpper (s : String) : String :=
  String.mk (s.data.map Char.toUpper)

/-- Split a char list at every occurrence of `sep` (Python `str.split(sep)`). -/
def splitAux (sep : Char) : List Char → List Char → List (List Char)
  | [], acc => [acc.reverse]
  | c :: cs, acc =>
      if c == sep then acc.reverse :: splitAux sep cs []
      else splitAux sep cs (c :: acc)

/-- Model of Python `str.split(sep)` for a one-character separator. -/
def pySplit (s : String) (sep : Char) : List String :=
  (splitAux sep s.data []).map String.mk

/-- Does `hay` start with `needle`? -/
def startsChars : List Char → List Char → Bool
  | _, [] => true
  | [], _ :: _ => false
  | a :: as, b :: bs => a == b && startsChars as bs

/-- Does `hay` contain `needle` as a contiguous run? (Python `needle in hay`.) -/
def hasSub : List Char → List Char → Bool
  | [], needle => needle.isEmpty
  | hay@(_ :: t), needle => startsChars hay needle || hasSub t needle

/-- Model of Python `needle in hay` on strings. -/
def strContains (hay needle : String) : Bool :=
  hasSub hay.data needle.data

/-- Model of Python `str.lstrip('0')`. -/
def dropZeros (s : String) : String :=
  String.mk (s.data.dropWhile (fun c => c == '0'))

/-- Model of Python `s[-n:]` (the last `n` characters). -/
def takeRightStr (s : String) (n : Nat) : String :=
  String.mk (s.data.drop (s.data.length - n))

/-- Remove every occurrence of a character (Python `str.replace(c, '')`). -/
def removeAll (c : Char) (s : String) : String :=
  String.mk (s.data.filter (fun d => !(d == c)))

/-- Python `str.isdigit()` for ASCII content: nonempty and all digits. -/
def pyIsDigits (s : String) : Bool :=
  !s.data.isEmpty && s.data.all Char.isDigit

/-- Decimal digits to a natural number. -/
def digitsToNat (cs : List Char) : Nat :=
  cs.foldl (fun n c => n * 10 + (c.toNat - 48)) 0

/-- Numeric value of a digit string. -/
def strToNat (s : String) : Nat :=
  digitsToNat s.data

/-- Model of Python `float(s)` restricted to plain decimal literals
(optional sign, digits around at most one dot); exponent / inf / nan forms,
which never occur in this module's bank data, are not modelled. -/
def pyFloat? (s : String) : Option ℚ :=
  let cs := trimListBy pyIsSpace s.data
  let (neg, cs) :=
    match cs with
    | '-' :: rest => (true, rest)
    | '+' :: rest => (false, rest)
    | _ => (false, cs)
  let sgn : ℚ → ℚ := fun q => if neg then -q else q
  match splitAux '.' cs [] with
  | [intPart] =>
      if !intPart.isEmpty && intPart.all Char.isDigit then
        some (sgn (digitsToNat intPart))
      else none
  | [intPart, fracPart] =>
      if !(intPart.isEmpty && fracPart.isEmpty)
          && intPart.all Char.isDigit && fracPart.all Char.isDigit then
        some (sgn ((digitsToNat intPart : ℚ)
          + (digitsToNat fracPart : ℚ) / ((10 : ℚ) ^ fracPart.length)))
      else none
  | _ => none

/-- Python `abs` on the module's float values. -/
def pyAbs (q : ℚ) : ℚ := if q < 0 then -q else q

/-! ## Calendar dates -/

/-- A calendar date as produced by `datetime.date`. -/
structure Date where
  year : Int
  month : Nat
  day : Nat
deriving DecidableEq

/-- Leap-year rule used by `datetime`. -/
def isLeap (y : Int) : Bool :=
  y % 4 == 0 && (y % 100 != 0 || y % 400 == 0)

/-- Number of days in a month. -/
def daysInMonth (y : Int) (m : Nat) : Nat :=
  if m == 2 then (if isLeap y then 29 else 28)
  else if m == 4 || m == 6 || m == 9 || m == 11 then 30
  else 31

/-- Model of the `datetime(y, m, d)` constructor: `none` models the
`ValueError` it raises on an invalid calendar date. -/
def mkDate? (y : Int) (m d : Nat) : Option Date :=
  if 1 ≤ m && m ≤ 12 && 1 ≤ d && d ≤ daysInMonth y m then
    some ⟨y, m, d⟩
  else none

/-- Date comparison (lexicographic), as `datetime.date` ordering. -/
def dateLE (a b : Date) : Bool :=
  a.year < b.year
    || (a.year == b.year
        && (a.month < b.month || (a.month == b.month && a.day ≤ b.day)))

/-- Civil-from-days conversion (days counted from 1970-01-01). -/
def civilFromDays (z0 : Int) : Date :=
  let z := z0 + 719468
  let era : Int := (if 0 ≤ z then z else z - 146096) / 146097
  let doe : Int := z - era * 146097
  let yoe : Int := (doe - doe / 1460 + doe / 36524 - doe / 146096) / 365
  let y : Int := yoe + era * 400
  let doy : Int := doe - (365 * yoe + yoe / 4 - yoe / 100)
  let mp : Int := (5 * doy + 2) / 153
  let d : Int := doy - (153 * mp + 2) / 5 + 1
  let m : Int := if mp < 10 then mp + 3 else mp - 9
  { year := if m ≤ 2 then y + 1 else y, month := m.toNat, day := d.toNat }

/-- Model of `xlrd.xldate_as_tuple(v, 0)[:3]` for modern serials: Excel day
serial to a calendar date (serial 25569 is 1970-01-01). -/
def xldateToDate (q : ℚ) : Option Date :=
  if q < 1 then none else some (civilFromDays (⌊q⌋ - 25569))

/-- Decidable equality for `Except` results (element-wise). -/
instance {e a : Type} [DecidableEq e] [DecidableEq a] :
    DecidableEq (Except e a) := fun x y =>
  match x, y with
  | .error u, .error v =>
      if h : u = v then isTrue (by subst h; rfl)
      else isFalse (fun hc => h (Except.error.inj hc))
  | .ok u, .ok v =>
      if h : u = v then isTrue (by subst h; rfl)
      else isFalse (fun hc => h (Except.ok.inj hc))
  | .error _, .ok _ => isFalse (fun hc => Except.noConfusion hc)
  | .ok _, .error _ => isFalse (fun hc => Except.noConfusion hc)

/-! ## Data model (`bank.import`, `bank.import.line`, `bank.import.match`) -/

/-- The `bank_type` selection field. -/
inductive BankType | bcp | nacion | continental | other
deriving DecidableEq

/-- `bank_type.upper()` as used in the batch name. -/
def bankTypeUpper : BankType → String
  | .bcp => "BCP"
  | .nacion => "NACION"
  | .continental => "CONTINENTAL"
  | .other => "OTHER"

/-- The `file_type` computed selection field. -/
inductive FileType | txt | excel
deriving DecidableEq

/-- The `state` selection field of `bank.import`. -/
inductive ImpState | draft | processed | matched
deriving DecidableEq

/-- The `match_type` selection of `bank.import.match`: `exact` models the
source value `'exact'`, `inexact` models the source value `'partial'`. -/
inductive MatchKind | exact | inexact
deriving DecidableEq

/-- A `bank.import.line` record (the canonical Transaction).  Record ids are
opaque database identifiers; lines created by the parsers carry `lineId = 0`. -/
structure ImportLine where
  lineId : Nat
  importId : Nat
  transactionDate : Date
  description : String
  amount : ℚ
  operationNumber : String
  originalLine : String
deriving DecidableEq

/-- A `bank.import.match` record. -/
structure MatchRec where
  importId : Nat
  lineId : Nat
  payId : Nat
  matchType : MatchKind
deriving DecidableEq

/-- The `state` field of `account.payment` (only values this module queries). -/
inductive PayState | draft | posted | sent | inProcess | other
deriving DecidableEq

/-- The slice of an `account.payment` record this module reads.  `name` and
`memo` are always present (falsy values modelled as `""`); `communication`,
`payment_reference` and `narration` may be absent (`hasattr` is false). -/
structure Payment where
  payId : Nat
  state : PayState
  amount : ℚ
  date : Date
  name : String
  memo : String
  communication : Option String
  paymentReference : Option String
  narration : Option String
deriving DecidableEq

/-! ## Spreadsheet cells -/

/-- A spreadsheet cell value: `empty` models Python `None` (openpyxl) and the
empty string (xlrd), `num` a numeric cell, `str` a text cell, `date` a cell
openpyxl materialises as a `datetime`. -/
inductive CellVal
  | empty
  | num (q : ℚ)
  | str (s : String)
  | date (d : Date)
deriving DecidableEq

/-- A sheet row and a sheet (list of rows). -/
abbrev Row := List CellVal
abbrev Sheet := List Row

/-- Python truthiness of a cell value. -/
def cellTruthy : CellVal → Bool
  | .empty => false
  | .num q => !(q == 0)
  | .str s => !(s == "")
  | .date _ => true

/-- Rendering of a numeric cell under `str(...)`.  Any rendering made of
digits, `-` and `/` is behaviourally faithful here: the module only ever
keyword-matches such strings against alphabetic markers (never a hit) or
round-trips them through `float(...)` (handled on the `num` constructor
directly). -/
def ratStr (q : ℚ) : String :=
  if q.den == 1 then toString q.num
  else toString q.num ++ "/" ++ toString (q.den : Int)

/-- Rendering of a date cell under `str(...)` (digit/dash text). -/
def dateStr (d : Date) : String :=
  toString d.year ++ "-" ++ toString (d.month : Int) ++ "-" ++ toString (d.day : Int)

/-- Model of Python `str(cell_value)`, with `empty` rendered as `''`
(openpyxl cell values are accessed behind an `is not None` / truthiness
guard, and xlrd renders empty cells as `''`). -/
def cellStr : CellVal → String
  | .empty => ""
  | .num q => ratStr q
  | .str s => s
  | .date d => dateStr d

/-- `row[i]` under the bounds-guarded accessors (`get_value`): missing /
`None` becomes `''`. -/
def getCell (row : Row) (i : Nat) : CellVal :=
  row.getD i .empty

/-- Row lookup on a sheet (total, used where the index is known in range). -/
def rowAt (sheet : Sheet) (i : Nat) : Row :=
  sheet.getD i []

/-! ## Text (TXT) parser — `_process_txt_file` and friends -/

/-- Model of `datetime.strptime(s, '%d/%m/%Y')` (`none` = `ValueError`). -/
def strptimeDMY (sep : Char) (s : String) : Option Date :=
  match pySplit s sep with
  | [d, m, y] =>
      if pyIsDigits d && d.data.length ≤ 2
          && pyIsDigits m && m.data.length ≤ 2
          && pyIsDigits y && y.data.length ≤ 4 then
        mkDate? (strToNat y) (strToNat m) (strToNat d)
      else none
  | _ => none

/-- Model of `datetime.strptime(s, '%Y<sep>%m<sep>%d')`. -/
def strptimeYMD (sep : Char) (s : String) : Option Date :=
  match pySplit s sep with
  | [y, m, d] =>
      if pyIsDigits y && y.data.length ≤ 4
          && pyIsDigits m && m.data.length ≤ 2
          && pyIsDigits d && d.data.length ≤ 2 then
        mkDate? (strToNat y) (strToNat m) (strToNat d)
      else none
  | _ => none

/-- Model of `datetime.strptime(s, '%m/%d/%Y')`. -/
def strptimeMDY (sep : Char) (s : String) : Option Date :=
  match pySplit s sep with
  | [m, d, y] =>
      if pyIsDigits m && m.data.length ≤ 2
          && pyIsDigits d && d.data.length ≤ 2
          && pyIsDigits y && y.data.length ≤ 4 then
        mkDate? (strToNat y) (strToNat m) (strToNat d)
      else none
  | _ => none

/-- `_is_transaction_line`: ≥ 6 `;`-fields after stripping quotes and a
`DD/MM/YYYY` date in field 0 (exceptions yield `False`). -/
def isTransactionLine (line : String) : Bool :=
  let fs := (pySplit line ';').map stripQuotes
  fs.length ≥ 6 && (strptimeDMY '/' (fs.getD 0 "")).isSome

/-- Does the line start with a quote character? (`line.startswith('"')`). -/
def startsWithQuote (line : String) : Bool :=
  match line.data with
  | '"' :: _ => true
  | _ => false

/-- `_parse_txt_transaction`: parse one candidate line into an import line;
`none` models the per-line exception swallowing (line dropped). -/
def parseTxtTransaction (bank : BankType) (impId : Nat) (line : String) :
    Option ImportLine :=
  let fs := (pySplit line ';').map (fun f => pyStrip (stripQuotes f))
  if fs.length ≥ 6 then
    match strptimeDMY '/' (fs.getD 0 "") with
    | none => none
    | some d =>
        let amount := (pyFloat? (removeAll ',' (fs.getD 3 ""))).getD 0
        let op0 := fs.getD 5 ""
        let op :=
          if bank == .bcp && !(op0 == "") && op0.data.length ≥ 6 then
            takeRightStr op0 6
          else op0
        some { lineId := 0, importId := impId, transactionDate := d,
               description := fs.getD 2 "", amount := amount,
               operationNumber := op, originalLine := line }
  else none

/-- Message used when the TXT content cannot be decoded as UTF-8. -/
def decodeErrorMsg : String := "decodificación UTF-8 fallida"

/-! ## File bytes and spreadsheet backends -/

/-- The decoded nature of the uploaded bytes: UTF-8 text, a modern `.xlsx`
archive (readable by openpyxl), a legacy `.xls` workbook (readable by xlrd;
modelled with its one relevant sheet), or bytes none of them accept. -/
inductive FileBytes
  | utf8Text (s : String)
  | xlsxData (sheet : Sheet)
  | xlsData (sheet : Sheet)
  | binary
deriving DecidableEq

/-- `base64.b64decode(...).decode('utf-8')`: only text bytes decode. -/
def decodeUtf8 : FileBytes → Option String
  | .utf8Text s => some s
  | _ => none

/-- `_process_txt_file`: decode, keep candidate transaction lines, parse each
(bad lines silently dropped). -/
def processTxtFile (impId : Nat) (bank : BankType) (fb : FileBytes) :
    Except String (List ImportLine) :=
  match decodeUtf8 fb with
  | none => .error ("Error al procesar el archivo TXT: " ++ decodeErrorMsg)
  | some content =>
      let ls := pySplit content '\n'
      let txLines := ls.filter fun l =>
        !(pyStrip l == "") && startsWithQuote l && isTransactionLine l
      .ok (txLines.filterMap (parseTxtTransaction bank impId))

/-! ## Generic spreadsheet parser (`_parse_excel_openpyxl` / `_parse_excel_xlrd`) -/

/-- The column-role mapping dictionary built by `_get_excel_column_mapping`. -/
structure ColMapping where
  date? : Option Nat := none
  description? : Option Nat := none
  cargo? : Option Nat := none
  abono? : Option Nat := none
  operation? : Option Nat := none
deriving DecidableEq

/-- Python `if not col_mapping:` — the dict is empty. -/
def ColMapping.isEmptyMap (cm : ColMapping) : Bool :=
  cm.date?.isNone && cm.description?.isNone && cm.cargo?.isNone
    && cm.abono?.isNone && cm.operation?.isNone

/-- `any(word in header for word in kws)`. -/
def kwHit (kws : List String) (h : String) : Bool :=
  kws.any fun k => strContains h k

/-- One step of `_get_excel_column_mapping`'s `elif` chain (later headers
overwrite earlier assignments of the same role). -/
def mappingStep (cm : ColMapping) (ih : Nat × String) : ColMapping :=
  let hl := pyStrip (pyLower ih.2)
  if kwHit ["fecha", "date", "dia"] hl then
    { cm with date? := some ih.1 }
  else if kwHit ["descripcion", "concepto", "detalle", "description",
                  "memo", "glosa", "trans"] hl then
    { cm with description? := some ih.1 }
  else if kwHit ["cargo", "debe", "debito"] hl then
    { cm with cargo? := some ih.1 }
  else if kwHit ["abono", "haber", "credito"] hl then
    { cm with abono? := some ih.1 }
  else if kwHit ["documento", "nro", "numero", "referencia", "reference",
                  "operation"] hl then
    { cm with operation? := some ih.1 }
  else cm

/-- `_get_excel_column_mapping`. -/
def getExcelColumnMapping (headers : List String) : ColMapping :=
  headers.enum.foldl mappingStep {}

/-- Which backend produced the grid (`parser_type`). -/
inductive ParserKind | openpyxl | xlrd
deriving DecidableEq

/-- The date-format list tried on string date cells, in source order:
`['%Y.%m.%d', '%d/%m/%Y', '%Y-%m-%d', '%d-%m-%Y', '%m/%d/%Y']`. -/
def tryDateFormats (s : String) : Option Date :=
  let t := pyStrip s
  match strptimeYMD '.' t with
  | some d => some d
  | none =>
      match strptimeDMY '/' t with
      | some d => some d
      | none =>
          match strptimeYMD '-' t with
          | some d => some d
          | none =>
              match strptimeDMY '-' t with
              | some d => some d
              | none => strptimeMDY '/' t

/-- Date extraction of `_create_excel_import_line`: native date, then the
format list on strings, then (xlrd only) the Excel serial decoding. -/
def resolveDate (pt : ParserKind) (c : CellVal) : Option Date :=
  if cellTruthy c then
    match c with
    | .date d => some d
    | .str s => tryDateFormats s
    | .num q => if pt == .xlrd then xldateToDate q else none
    | .empty => none
  else none

/-- `str(v).replace(',', '').replace('$', '').strip()`. -/
def cleanMoneyStr (s : String) : String :=
  pyStrip (removeAll '$' (removeAll ',' s))

/-- Value of `amount` after the cargo (debit) block: `-abs(v)` for a parsed
non-zero value, else `0`.  On `num` cells the `float(str(v))` round trip is
the identity, so the value is used directly. -/
def cargoAmount : CellVal → ℚ
  | .empty => 0
  | .date _ => 0
  | .num q => if q == 0 then 0 else -(pyAbs q)
  | .str s =>
      if !(s == "") && !(pyStrip s == "") then
        let cs := cleanMoneyStr s
        if !(cs == "") then
          match pyFloat? cs with
          | some q => -(pyAbs q)
          | none => 0
        else 0
      else 0

/-- Value contributed by the abono (credit) block: the parsed value with its
own sign (the source applies no `abs` here). -/
def abonoAmount : CellVal → ℚ
  | .empty => 0
  | .date _ => 0
  | .num q => if q == 0 then 0 else q
  | .str s =>
      if !(s == "") && !(pyStrip s == "") then
        let cs := cleanMoneyStr s
        if !(cs == "") then
          match pyFloat? cs with
          | some q => q
          | none => 0
        else 0
      else 0

/-- Amount resolution of `_create_excel_import_line`: the cargo block first;
the abono block only runs when `'abono' in col_mapping and amount == 0.0`. -/
def resolveAmount (row : Row) (cm : ColMapping) : ℚ :=
  let a1 : ℚ :=
    match cm.cargo? with
    | some i => cargoAmount (getCell row i)
    | none => 0
  if a1 == 0 then
    match cm.abono? with
    | some i => abonoAmount (getCell row i)
    | none => 0
  else a1

/-- Plain-text extraction (`str(v) if v else ''`). -/
def cellText (c : CellVal) : String :=
  if cellTruthy c then cellStr c else ""

/-- Deterministic stand-in for `str(row)` in the audit field. -/
def rowRepr (row : Row) : String :=
  String.intercalate "|" (row.map cellStr)

/-- `_create_excel_import_line`: build one import line from a data row;
`none` models the "Fila descartada" branch (no minimal data). -/
def createExcelImportLine (pt : ParserKind) (today : Date) (impId : Nat)
    (cm : ColMapping) (row : Row) : Option ImportLine :=
  let td :=
    match cm.date? with
    | some i => resolveDate pt (getCell row i)
    | none => none
  let desc :=
    match cm.description? with
    | some i => cellText (getCell row i)
    | none => ""
  let amount := resolveAmount row cm
  let op :=
    match cm.operation? with
    | some i => cellText (getCell row i)
    | none => ""
  if td.isSome || !(amount == 0) || !(op == "") then
    some { lineId := 0, importId := impId, transactionDate := td.getD today,
           description := desc, amount := amount, operationNumber := op,
           originalLine := "Excel row: " ++ rowRepr row }
  else none

/-- Linear scan `for r in range(start, start + fuel): if p r: return r`. -/
def findFirstIdx (p : Nat → Bool) : Nat → Nat → Option Nat
  | _, 0 => none
  | start, fuel + 1 =>
      if p start then some start else findFirstIdx p (start + 1) fuel

/-- Header test of the generic openpyxl scan:
`any('fecha' in (str(cell.value).lower() if cell.value else ''))`. -/
def rowHasFechaOp (row : Row) : Bool :=
  row.any fun c => strContains (pyLower (cellText c)) "fecha"

/-- Header test of the generic xlrd scan (`str(cell)` without a guard —
equivalent because xlrd renders empty cells as `''`). -/
def rowHasFechaXl (row : Row) : Bool :=
  row.any fun c => strContains (pyLower (cellStr c)) "fecha"

/-- The openpyxl header search: `for row_num in range(1, min(10, max_row + 1))`
over 1-based rows — i.e. rows `1 .. min(9, max_row)`. -/
def findHeaderRowOp (sheet : Sheet) : Option Nat :=
  findFirstIdx (fun r => rowHasFechaOp (rowAt sheet (r - 1))) 1
    (min 10 (sheet.length + 1) - 1)

/-- The xlrd header search: `for row_num in range(min(10, nrows))` over
0-based rows — i.e. rows `0 .. min(10, nrows) - 1`. -/
def findHeaderRowXl (sheet : Sheet) : Option Nat :=
  findFirstIdx (fun r => rowHasFechaXl (rowAt sheet r)) 0 (min 10 sheet.length)

/-- Error raised when no header row is found. -/
def headerNotFoundMsg : String :=
  "No se encontró la fila de encabezados en el archivo Excel. Verifique que haya una columna con \"fecha\"."

/-- Error raised when the column mapping is empty. -/
def mappingEmptyMsg : String :=
  "No se pudieron mapear las columnas del Excel. Verifique que contenga las columnas necesarias (fecha, descripción, monto, operación)."

/-- Error raised when no data row could be processed. -/
def noExcelDataMsg : String :=
  "No se pudieron extraer datos del archivo Excel. Verifique el formato de los datos."

/-! ## Continental parser (`_parse_continental_excel_openpyxl` and helpers) -/

/-- `_parse_continental_date`: `DD-MM` with year inference (rolling back one
year for Nov/Dec rows read in Jan/Feb), falling back to the explicit-year
formats `['%d/%m/%Y', '%d-%m-%Y', '%Y-%m-%d']`.  `none` models the `None`
returns and the swallowed exceptions alike.  `Python `'-' in s` is modelled
as `split('-')` yielding ≥ 2 parts. -/
def parseContinentalDate (nowYear : Int) (nowMonth : Nat) (dateStr0 : String) :
    Option Date :=
  if dateStr0 == "" || pyStrip dateStr0 == "" then none
  else
    let s := pyStrip dateStr0
    let tryFormats : Option Date :=
      match strptimeDMY '/' s with
      | some d => some d
      | none =>
          match strptimeDMY '-' s with
          | some d => some d
          | none => strptimeYMD '-' s
    let parts := pySplit s '-'
    if parts.length ≥ 2 then
      match parts with
      | [dS, mS] =>
          let day := pyStrip dS
          let month := pyStrip mS
          if pyIsDigits day && pyIsDigits month then
            let d := strToNat day
            let m := strToNat month
            if 1 ≤ d && d ≤ 31 && 1 ≤ m && m ≤ 12 then
              let y := if nowMonth ≤ 2 && 11 ≤ m then nowYear - 1 else nowYear
              mkDate? y m d
            else tryFormats
          else tryFormats
      | _ => tryFormats
    else tryFormats

/-- `_parse_continental_amount`: strip commas and spaces, parse, default 0. -/
def parseContinentalAmount (s : String) : ℚ :=
  if s == "" then 0
  else
    let clean := pyStrip (removeAll ' ' (removeAll ',' s))
    if clean == "" then 0
    else (pyFloat? clean).getD 0

/-- The Continental column mapping (`fecha`, `descripcion`, `operacion`,
`monto`). -/
structure ContMapping where
  fecha? : Option Nat := none
  descripcion? : Option Nat := none
  operacion? : Option Nat := none
  monto? : Option Nat := none
deriving DecidableEq

/-- One step of the Continental header mapping `elif` chain. -/
def contMappingStep (cm : ContMapping) (ih : Nat × String) : ContMapping :=
  let hs := pyStrip (pyUpper ih.2)
  if strContains hs "FECHA OPER" then { cm with fecha? := some ih.1 }
  else if strContains hs "DESCRIPCI" then { cm with descripcion? := some ih.1 }
  else if strContains hs "N OPER" then { cm with operacion? := some ih.1 }
  else if strContains hs "CARGO/ABONO" then { cm with monto? := some ih.1 }
  else cm

/-- The Continental column mapping over the header cells. -/
def contMapping (headers : List String) : ContMapping :=
  headers.enum.foldl contMappingStep {}

/-- `row[col_mapping[k]] if col_mapping.get(k) else None`, with the raw
indexing: the Python truthiness of the index makes index `0` behave like an
absent key, and an out-of-range index raises (`.error`), dropping the row. -/
def contCell? (row : Row) (idx? : Option Nat) : Except Unit (Option CellVal) :=
  match idx? with
  | none => .ok none
  | some 0 => .ok none
  | some i =>
      match row.get? i with
      | some c => .ok (some c)
      | none => .error ()

/-- `str(cell.value).strip() if cell and cell.value else ''`. -/
def contCellText (oc : Option CellVal) : String :=
  match oc with
  | some c => if cellTruthy c then pyStrip (cellStr c) else ""
  | none => ""

/-- The creation part of a Continental data row (after the `SALDO ANTERIOR`
skip check): date, description, amount, operation, and the minimal-data
gate `(date or amount != 0 or operation) and description`. -/
def continentalRowCreate (today : Date) (nowYear : Int) (nowMonth : Nat)
    (impId : Nat) (cm : ContMapping) (row : Row) : Option ImportLine :=
  match contCell? row cm.fecha? with
  | .error _ => none
  | .ok fechaCell =>
      let fechaStr := contCellText fechaCell
      let td := parseContinentalDate nowYear nowMonth fechaStr
      match contCell? row cm.descripcion? with
      | .error _ => none
      | .ok descCell =>
          let description := contCellText descCell
          match contCell? row cm.monto? with
          | .error _ => none
          | .ok montoCell =>
              let montoStr :=
                match montoCell with
                | some c => if cellTruthy c then pyStrip (cellStr c) else "0"
                | none => "0"
              let amount := parseContinentalAmount montoStr
              match contCell? row cm.operacion? with
              | .error _ => none
              | .ok opCell =>
                  let op := contCellText opCell
                  if (td.isSome || !(amount == 0) || !(op == ""))
                      && !(description == "") then
                    some { lineId := 0, importId := impId,
                           transactionDate := td.getD today,
                           description := description, amount := amount,
                           operationNumber := op,
                           originalLine := "Continental: " ++ fechaStr ++ " | "
                             ++ description ++ " | " ++ montoStr ++ " | " ++ op }
                  else none

/-- One Continental data row: the `SALDO ANTERIOR` skip check (guarded by the
truthiness of the `descripcion` index), then the creation logic.  `none`
covers skipped, discarded and exception-dropped rows alike. -/
def continentalRowLine (today : Date) (nowYear : Int) (nowMonth : Nat)
    (impId : Nat) (cm : ContMapping) (row : Row) : Option ImportLine :=
  match contCell? row cm.descripcion? with
  | .error _ => none
  | .ok descCell =>
      let desc :=
        match descCell with
        | some c => if cellTruthy c then pyUpper (pyStrip (cellStr c)) else ""
        | none => ""
      if strContains desc "SALDO ANTERIOR" then none
      else continentalRowCreate today nowYear nowMonth impId cm row

/-- Header test of the Continental openpyxl scan: the space-joined truthy
cells, upper-cased, contain both `FECHA OPER` and `CARGO`. -/
def contRowIsHeader (row : Row) : Bool :=
  let rowStr := pyUpper (String.intercalate " "
    (row.filterMap fun c => if cellTruthy c then some (cellStr c) else none))
  strContains rowStr "FECHA OPER" && strContains rowStr "CARGO"

/-- The Continental header search:
`for row_num in range(1, min(5, max_row + 1))` — 1-based rows `1 .. min(4, max_row)`. -/
def findContHeaderRow (sheet : Sheet) : Option Nat :=
  findFirstIdx (fun r => contRowIsHeader (rowAt sheet (r - 1))) 1
    (min 5 (sheet.length + 1) - 1)

/-- Continental format / column errors. -/
def contFormatMsg : String :=
  "No se encontró el formato de Banco Continental. Verifique las columnas FECHA OPER., N OPER., CARGO/ABONO."

def contColumnsMsg : String :=
  "No se encontraron las columnas necesarias en el archivo Continental."

def contNoLinesMsg : String :=
  "No se pudieron extraer transacciones válidas del archivo Continental."

/-- `_parse_continental_excel_openpyxl`. -/
def parseContinentalExcelOpenpyxl (today : Date) (nowYear : Int)
    (nowMonth : Nat) (impId : Nat) (sheet : Sheet) :
    Except String (List ImportLine) :=
  match findContHeaderRow sheet with
  | none => .error contFormatMsg
  | some hr =>
      let headers := (rowAt sheet (hr - 1)).map fun c =>
        if cellTruthy c then cellStr c else ""
      let cm := contMapping headers
      if cm.fecha?.isSome && cm.monto?.isSome then
        let dataRows := (sheet.drop hr).filter fun row => row.any cellTruthy
        let lines := dataRows.filterMap
          (continentalRowLine today nowYear nowMonth impId cm)
        if lines.isEmpty then .error contNoLinesMsg else .ok lines
      else .error contColumnsMsg

/-- `_parse_excel_openpyxl`: Continental dispatch, header scan, mapping,
data rows.  In the generic path `lines_created` counts every processed
non-empty data row (discarded rows included), so the zero-lines error fires
exactly when there is no non-empty data row. -/
def parseExcelOpenpyxl (today : Date) (nowYear : Int) (nowMonth : Nat)
    (impId : Nat) (bank : BankType) (sheet : Sheet) :
    Except String (List ImportLine) :=
  if bank == .continental then
    parseContinentalExcelOpenpyxl today nowYear nowMonth impId sheet
  else
    match findHeaderRowOp sheet with
    | none => .error headerNotFoundMsg
    | some hr =>
        let headers := (rowAt sheet (hr - 1)).map fun c =>
          if cellTruthy c then pyStrip (pyLower (cellStr c)) else ""
        let cm := getExcelColumnMapping headers
        if cm.isEmptyMap then .error mappingEmptyMsg
        else
          let dataRows := (sheet.drop hr).filter fun row => row.any cellTruthy
          let lines := dataRows.filterMap
            (createExcelImportLine .openpyxl today impId cm)
          if dataRows.isEmpty then .error noExcelDataMsg else .ok lines

/-- `AttributeError` message for the missing `_parse_continental_excel_xlrd`
method (the source calls it but never defines it). -/
def contXlrdMissingMsg : String :=
  "'bank.import' object has no attribute '_parse_continental_excel_xlrd'"

/-- `_parse_excel_xlrd`: the Continental branch calls an undefined method
(always an error); the generic branch mirrors the openpyxl one with 0-based
rows and a 10-row header scan. -/
def parseExcelXlrd (today : Date) (impId : Nat) (bank : BankType)
    (sheet : Sheet) : Except String (List ImportLine) :=
  if bank == .continental then .error contXlrdMissingMsg
  else
    match findHeaderRowXl sheet with
    | none => .error headerNotFoundMsg
    | some hr =>
        let headers := (rowAt sheet hr).map fun c =>
          pyStrip (pyLower (cellStr c))
        let cm := getExcelColumnMapping headers
        if cm.isEmptyMap then .error mappingEmptyMsg
        else
          let dataRows := (sheet.drop (hr + 1)).filter fun row =>
            row.any cellTruthy
          let lines := dataRows.filterMap
            (createExcelImportLine .xlrd today impId cm)
          if dataRows.isEmpty then .error noExcelDataMsg else .ok lines

/-! ## `_process_excel_file` backend cascade -/

/-- `openpyxl.load_workbook`: only `.xlsx` archives open; everything else
raises a "not a zip file" error. -/
def openpyxlOpen : FileBytes → Except String Sheet
  | .xlsxData s => .ok s
  | _ => .error "File is not a zip file"

/-- `xlrd.open_workbook`: only legacy `.xls` workbooks open.  (For
Continental the source looks for a sheet named `Sheet6` and falls back to
sheet 0; the workbook is modelled by its one relevant sheet.) -/
def xlrdOpen : FileBytes → Except String Sheet
  | .xlsData s => .ok s
  | _ => .error "Unsupported format, or corrupt file"

def emptySheetMsg : String :=
  "El archivo Excel está vacío o no contiene datos suficientes."

def noBackendMsg : String :=
  "No se encontraron librerías para procesar archivos Excel."

/-- The whole openpyxl attempt: open, reject tiny sheets, parse. -/
def openpyxlAttempt (today : Date) (nowYear : Int) (nowMonth : Nat)
    (impId : Nat) (bank : BankType) (fb : FileBytes) :
    Except String (List ImportLine) :=
  match openpyxlOpen fb with
  | .error e => .error e
  | .ok sheet =>
      if sheet.length < 2 then .error emptySheetMsg
      else parseExcelOpenpyxl today nowYear nowMonth impId bank sheet

/-- The whole xlrd attempt. -/
def xlrdAttempt (today : Date) (impId : Nat) (bank : BankType)
    (fb : FileBytes) : Except String (List ImportLine) :=
  match xlrdOpen fb with
  | .error e => .error e
  | .ok sheet =>
      if sheet.length < 2 then .error emptySheetMsg
      else parseExcelXlrd today impId bank sheet

/-- The aggregate failure message built when neither backend succeeded. -/
def excelFinalMsg (lastError : Option String) : String :=
  "No se pudo procesar el archivo Excel."
    ++ (match lastError with
        | some e => "\n\nÚltimo error: " ++ e
        | none => "")
    ++ "\n\nVerifique que:\n- El archivo no esté corrupto\n- El archivo tenga extensión .xlsx o .xls\n- El archivo contenga datos válidos"

/-- The xlrd phase of `_process_excel_file` (reached when openpyxl was
unavailable, or failed without triggering the early wrapped raise). -/
def xlrdPhase (xlAvail : Bool) (today : Date) (impId : Nat) (bank : BankType)
    (fb : FileBytes) (lastError : Option String) :
    Except String (List ImportLine) :=
  if xlAvail then
    match xlrdAttempt today impId bank fb with
    | .ok ls => .ok ls
    | .error e2 => .error (excelFinalMsg (some e2))
  else .error (excelFinalMsg lastError)

/-- `_process_excel_file`: capability check, openpyxl attempt with its
error-message-sensitive fallback policy, then the xlrd attempt. -/
def processExcelFile (opAvail xlAvail : Bool) (today : Date) (nowYear : Int)
    (nowMonth : Nat) (impId : Nat) (bank : BankType) (fb : FileBytes) :
    Except String (List ImportLine) :=
  if !opAvail && !xlAvail then .error noBackendMsg
  else if opAvail then
    match openpyxlAttempt today nowYear nowMonth impId bank fb with
    | .ok ls => .ok ls
    | .error e =>
        if strContains (pyLower e) "not a zip file"
            || strContains (pyLower e) "invalid" then
          xlrdPhase xlAvail today impId bank fb (some e)
        else if !xlAvail then
          .error ("Error procesando archivo Excel: " ++ e
            ++ "\n\nVerifique que el archivo no esté corrupto.")
        else xlrdPhase xlAvail today impId bank fb (some e)
  else xlrdPhase xlAvail today impId bank fb none

/-! ## The Import batch and `action_process_file` -/

/-- The environment of a run: available spreadsheet backends and the clock
(`datetime.now()` / `fields.Date.today()` / the timestamp string used in the
batch name). -/
structure Env where
  opAvail : Bool
  xlAvail : Bool
  today : Date
  nowYear : Int
  nowMonth : Nat
  nowStr : String
deriving DecidableEq

/-- A `bank.import` record together with its owned lines and matches. -/
structure ImportState where
  importId : Nat
  name : String
  fileData : Option FileBytes
  fileType : FileType
  bankType : BankType
  state : ImpState
  lines : List ImportLine
  matchRecs : List MatchRec
deriving DecidableEq

def noFileMsg : String := "Debe cargar un archivo antes de procesarlo."

def noDataMsg : String :=
  "No se pudieron extraer datos del archivo. Verifique que el archivo tenga el formato correcto y contenga datos."

/-- The parsing dispatch inside `action_process_file`'s `try` block. -/
def parseDispatch (env : Env) (impId : Nat) (ft : FileType) (bank : BankType)
    (fb : FileBytes) : Except String (List ImportLine) :=
  match ft with
  | .txt => processTxtFile impId bank fb
  | .excel =>
      processExcelFile env.opAvail env.xlAvail env.today env.nowYear
        env.nowMonth impId bank fb

/-- `action_process_file`.  The returned pair is the record state as left in
the database and the raised user error, if any: the no-file check fires
before anything is touched, but `self.line_ids.unlink()` runs before the
`try` block, so every later failure leaves the line set cleared. -/
def actionProcessFile (env : Env) (s : ImportState) :
    ImportState × Option String :=
  match s.fileData with
  | none => (s, some noFileMsg)
  | some fb =>
      let s1 := { s with lines := [] }
      match parseDispatch env s.importId s.fileType s.bankType fb with
      | .error e => (s1, some e)
      | .ok ls =>
          if ls.isEmpty then (s1, some noDataMsg)
          else
            ({ s1 with
                lines := ls
                state := .processed
                name := "Importación " ++ bankTypeUpper s.bankType ++ " - "
                  ++ env.nowStr }, none)

/-! ## Match engine (`action_match_payments` / `_find_matching_payments`) -/

/-- The default engine's domain `state in ['posted', 'sent', 'in_process']`. -/
def isActivePayment (p : Payment) : Bool :=
  p.state == .posted || p.state == .sent || p.state == .inProcess

/-- `str(op).strip().lstrip('0') or '0'`. -/
def cleanOperation (op : String) : String :=
  let c := dropZeros (pyStrip op)
  if c == "" then "0" else c

/-- `_check_operation_match`: empty operation numbers match trivially;
otherwise the payment's truthy reference fields are scanned with the
substring / zero-stripped / suffix rules. -/
def checkOperationMatch (p : Payment) (op : String) : Bool :=
  if op == "" then true
  else
    let clean := cleanOperation op
    let fieldsToCheck : List String :=
      [p.name, p.memo]
        ++ (match p.communication with
            | some c => if !(c == "") then [c] else []
            | none => [])
        ++ (match p.paymentReference with
            | some r => if !(r == "") then [r] else []
            | none => [])
    fieldsToCheck.any fun fv =>
      !(fv == "") &&
        (let fs := pyStrip fv
         strContains fs op
           || (!(clean == "0") && strContains fs clean)
           || (let cf0 := dropZeros fs
               let cf := if cf0 == "" then "0" else cf0
               clean == cf)
           || (fs.data.length ≥ 6 &&
                (let last6 := takeRightStr fs 6
                 op == last6 || clean == dropZeros last6)))

/-- The duplicate search `bank.import.match.search([...])` over the match
records visible in the database. -/
def existsMatch (acc : List MatchRec) (impId payId lineId : Nat) : Bool :=
  acc.any fun e => e.importId == impId && e.payId == payId && e.lineId == lineId

/-- One iteration of the amount-pool loop of `_find_matching_payments`:
`created` are the matches this line has created so far, `existing` the ones
already in the database. -/
def poolStep (impId : Nat) (line : ImportLine) (existing : List MatchRec)
    (created : List MatchRec) (p : Payment) : List MatchRec :=
  let opM := checkOperationMatch p line.operationNumber
  if opM || line.operationNumber == "" then
    if existsMatch (existing ++ created) impId p.payId line.lineId then created
    else
      created ++ [{ importId := impId, lineId := line.lineId, payId := p.payId,
                    matchType := if opM then .exact else .inexact }]
  else created

/-- The amount-pool loop: returns the matches created for this line. -/
def poolLoop (impId : Nat) (line : ImportLine) (pool : List Payment)
    (existing : List MatchRec) : List MatchRec :=
  pool.foldl (poolStep impId line existing) []

/-- One iteration of the operation-number fallback loop (always tagged
`'partial'`). -/
def fallbackStep (impId : Nat) (line : ImportLine) (existing : List MatchRec)
    (created : List MatchRec) (p : Payment) : List MatchRec :=
  if checkOperationMatch p line.operationNumber then
    if existsMatch (existing ++ created) impId p.payId line.lineId then created
    else
      created ++ [{ importId := impId, lineId := line.lineId, payId := p.payId,
                    matchType := .inexact }]
  else created

/-- The fallback loop over all active payments. -/
def fallbackLoop (impId : Nat) (line : ImportLine) (active : List Payment)
    (existing : List MatchRec) : List MatchRec :=
  active.foldl (fallbackStep impId line existing) []

/-- `_find_matching_payments` for one line: exact-amount pool (with the
±0.01 retry), the pool loop, then — when nothing was created and the line
has an operation number — the fallback loop.  Returns the created matches. -/
def findMatchingPayments (impId : Nat) (line : ImportLine)
    (payments : List Payment) (existing : List MatchRec) : List MatchRec :=
  let active := payments.filter isActivePayment
  let pool0 := active.filter fun p => p.amount == pyAbs line.amount
  let pool :=
    if pool0.isEmpty then
      active.filter fun p =>
        decide (pyAbs line.amount - 1/100 ≤ p.amount)
          && decide (p.amount ≤ pyAbs line.amount + 1/100)
    else pool0
  let created := poolLoop impId line pool existing
  if created.length == 0 && !(line.operationNumber == "") then
    created ++ fallbackLoop impId line active (existing ++ created)
  else created

def mustProcessFirstMsg : String := "Debe procesar el archivo primero."

/-- `action_match_payments`: guard on empty line set (raised before the
match records are cleared), clear, run the engine per line, mark matched. -/
def actionMatchPayments (payments : List Payment) (s : ImportState) :
    ImportState × Option String :=
  if s.lines.isEmpty then (s, some mustProcessFirstMsg)
  else
    let ms := s.lines.foldl
      (fun acc line => acc ++ findMatchingPayments s.importId line payments acc)
      []
    ({ s with matchRecs := ms, state := .matched }, none)

/-! ## Advanced wizard (`bank.import.wizard`) -/

/-- The wizard's configuration fields. -/
structure WizardCfg where
  dateFrom : Option Date
  dateTo : Option Date
  amountTolerance : ℚ
  searchInCommunication : Bool
  searchInReference : Bool
  searchInNarration : Bool
deriving DecidableEq

/-- `_amounts_match`. -/
def amountsMatch (w : WizardCfg) (importAmount payAmount : ℚ) : Bool :=
  if w.amountTolerance == 0 then pyAbs importAmount == payAmount
  else
    decide (pyAbs (pyAbs importAmount - payAmount)
      ≤ pyAbs importAmount * (w.amountTolerance / 100))

/-- `_operation_number_matches`: plain substring search over the selected
fields. -/
def operationNumberMatches (w : WizardCfg) (op : String) (p : Payment) :
    Bool :=
  let fieldsToCheck : List String :=
    (if w.searchInReference && !(p.name == "") then [p.name] else [])
      ++ (if w.searchInCommunication then
            match p.communication with
            | some c => if !(c == "") then [c] else []
            | none => []
          else [])
      ++ (if w.searchInNarration then
            (if !(p.memo == "") then [p.memo] else [])
              ++ (match p.narration with
                  | some n => if !(n == "") then [n] else []
                  | none => [])
          else [])
  fieldsToCheck.any fun f => strContains f op

/-- `_calculate_match_score`: +50 for amount, +50 for operation number. -/
def calculateMatchScore (w : WizardCfg) (line : ImportLine) (p : Payment) :
    Nat :=
  (if amountsMatch w line.amount p.amount then 50 else 0)
    + (if !(line.operationNumber == "")
          && operationNumberMatches w line.operationNumber p then 50 else 0)

/-- `_find_advanced_matches` for one line: a match per payment with a
positive score, `exact` iff the score reaches 100 (no duplicate guard). -/
def findAdvancedMatches (impId : Nat) (w : WizardCfg) (line : ImportLine)
    (payments : List Payment) : List MatchRec :=
  payments.foldl
    (fun acc p =>
      let score := calculateMatchScore w line p
      if score > 0 then
        acc ++ [{ importId := impId, lineId := line.lineId, payId := p.payId,
                  matchType := if score ≥ 100 then .exact else .inexact }]
      else acc)
    []

/-- The wizard's payment domain: `state in ['posted', 'sent']` plus the
optional date bounds. -/
def wizardPaymentFilter (w : WizardCfg) (p : Payment) : Bool :=
  (p.state == .posted || p.state == .sent)
    && (match w.dateFrom with
        | some d => dateLE d p.date
        | none => true)
    && (match w.dateTo with
        | some d => dateLE p.date d
        | none => true)

/-- `action_advanced_match`: clear prior matches, run the scorer per line
over the filtered payments, and mark the batch matched only if anything was
found. -/
def actionAdvancedMatch (w : WizardCfg) (payments : List Payment)
    (s : ImportState) : ImportState :=
  let pays := payments.filter (wizardPaymentFilter w)
  let ms := s.lines.foldl
    (fun acc line => acc ++ findAdvancedMatches s.importId w line pays) []
  { s with
      matchRecs := ms
      state := if ms.length > 0 then .matched else s.state }

/-! ## Concrete instances used by witnesses and counterexamples -/

/-- The (transaction line, payment) pair key of a match record. -/
def pairKey (m : MatchRec) : Nat × Nat := (m.lineId, m.payId)

/-- Duplicate-freedom invariant of a visible match set: every record belongs
to the import and no two share a (line, payment) pair. -/
def MatchInv (impId : Nat) (l : List MatchRec) : Prop :=
  (∀ m ∈ l, m.importId = impId) ∧ (l.map pairKey).Nodup

/-- A transaction line with an empty operation number (for C1). -/
def lineC1 : ImportLine :=
  { lineId := 1, importId := 5, transactionDate := ⟨2024, 1, 2⟩,
    description := "d", amount := 100, operationNumber := "",
    originalLine := "" }

/-- A posted payment with the matching amount and no digits in its reference
fields (for C1). -/
def payC1 : Payment :=
  { payId := 7, state := .posted, amount := 100, date := ⟨2024, 1, 2⟩,
    name := "PAY", memo := "", communication := none,
    paymentReference := none, narration := none }

/-- A line with an operation number, for the C2 witness. -/
def lineC2 : ImportLine :=
  { lineC1 with lineId := 2, operationNumber := "456789" }

/-- An import state with two lines, for the C2 witness. -/
def sC2 : ImportState :=
  { importId := 5, name := "n", fileData := none, fileType := .txt,
    bankType := .bcp, state := .processed, lines := [lineC1, lineC2],
    matchRecs := [] }

/-- A wizard configuration with exact amounts and all fields searched. -/
def wC2 : WizardCfg :=
  { dateFrom := none, dateTo := none, amountTolerance := 0,
    searchInCommunication := true, searchInReference := true,
    searchInNarration := true }

/-- A second payment for the C2 witness. -/
def payC2 : Payment :=
  { payC1 with payId := 8, name := "REF-456789" }

/-- The environment used by concrete process runs. -/
def envW : Env :=
  { opAvail := true, xlAvail := true, today := ⟨2025, 1, 10⟩,
    nowYear := 2025, nowMonth := 1, nowStr := "10/01/2025 12:00" }

/-- An environment with no spreadsheet backend. -/
def envNoLib : Env := { envW with opAvail := false, xlAvail := false }

/-- A one-transaction BCP text export. -/
def txtLineW : String :=
  "\"01/02/2024\";\"A\";\"PAGO\";\"150\";\"B\";\"000123456789\""

/-- A draft import holding that text file. -/
def s0W : ImportState :=
  { importId := 5, name := "n", fileData := some (.utf8Text txtLineW),
    fileType := .txt, bankType := .bcp, state := .draft, lines := [],
    matchRecs := [] }

/-- The transaction extracted from `txtLineW`. -/
def lineW : ImportLine :=
  { lineId := 0, importId := 5, transactionDate := ⟨2024, 2, 1⟩,
    description := "PAGO", amount := 150, operationNumber := "456789",
    originalLine := txtLineW }

/-- The state `action_process_file` leaves after a successful run on `s0W`. -/
def s1W : ImportState :=
  { s0W with
      lines := [lineW]
      state := .processed
      name := "Importación BCP - 10/01/2025 12:00" }

/-- A draft import with previously extracted lines and undecodable bytes
(for C3). -/
def sC3txt : ImportState :=
  { s0W with fileData := some FileBytes.binary, lines := [lineC1] }

/-- A draft Excel import with previously extracted lines (for C3's
missing-backend scenario). -/
def sC3xl : ImportState :=
  { s0W with
      fileData := some (FileBytes.xlsxData [[], []])
      fileType := .excel
      lines := [lineC1] }

/-- A draft import with no file attached (for C3). -/
def sC3none : ImportState := { s0W with fileData := none, lines := [lineC1] }

/-- A processed import with no lines but a leftover match (for C10). -/
def sC10 : ImportState :=
  { s0W with
      state := .processed
      matchRecs := [{ importId := 5, lineId := 9, payId := 9,
                      matchType := .exact }] }

/-- A generic sheet whose only `fecha` cell sits in the 10th row (1-based),
followed by one data row (for C5). -/
def sheetC5cx : Sheet :=
  List.replicate 9 ([CellVal.str "x"] : Row)
    ++ [[CellVal.str "Fecha", CellVal.str "Cargo"]]
    ++ [[CellVal.str "01/02/2024", CellVal.num 5]]

/-- A two-row sheet with no `fecha` marker at all (for the C5 witness). -/
def sheetC5no : Sheet := [[CellVal.str "x"], [CellVal.str "y"]]

/-- A sheet whose first `fecha` marker is in its second row (for the C5
witness's first-hit conjuncts). -/
def sheetC5pos : Sheet :=
  [[CellVal.str "x"], [CellVal.str "Fecha", CellVal.str "Cargo"],
   [CellVal.str "01/02/2024", CellVal.num 5]]

/-- The Continental column mapping used by the C7 instances. -/
def cmC7 : ContMapping :=
  { fecha? := some 1, descripcion? := some 2, operacion? := none,
    monto? := some 3 }

/-- A Continental data row whose description strictly contains the
opening-balance marker (for C7). -/
def rowC7cx : Row :=
  [CellVal.empty, .str "27-08", .str "SALDO ANTERIOR 2024", .str "150"]

/-- The same row with an ordinary description (for C7). -/
def rowC7ok : Row :=
  [CellVal.empty, .str "27-08", .str "PAGO CHEQUE", .str "150"]

/-- A Continental row whose description is exactly the marker (for C7). -/
def rowC7exact : Row :=
  [CellVal.empty, .str "27-08", .str "SALDO ANTERIOR", .str "150"]

/-! ## Theorems -/

/-- C8: when the Continental parser reads a `DD-MM` date string with day in
1–31 and month in 1–12, the year it assumes is the current year, rolled back
by one when the current month is at most 2 and the row's month is at least
11; the result is exactly the `datetime` constructor applied to that year
(so in particular `"15-12"` read in January yields December of the previous
year). -/
theorem c8_continental_year_rollback (nowYear : Int) (nowMonth : Nat)
    (s dS mS : String) (d m : Nat)
    (hsplit : pySplit (pyStrip s) '-' = [dS, mS])
    (hd : pyIsDigits (pyStrip dS) = true) (hm : pyIsDigits (pyStrip mS) = true)
    (hdv : strToNat (pyStrip dS) = d) (hmv : strToNat (pyStrip mS) = m)
    (hd1 : 1 ≤ d) (hd31 : d ≤ 31) (hm1 : 1 ≤ m) (hm12 : m ≤ 12) :
    parseContinentalDate nowYear nowMonth s
      = mkDate? (if nowMonth ≤ 2 ∧ 11 ≤ m then nowYear - 1 else nowYear) m d := by
  have hne : ¬ (pyStrip s = "") := by
    intro h
    rw [h] at hsplit
    simp [pySplit, splitAux] at hsplit
  have hse : ¬ (s = "") := fun h => hne (by rw [h]; rfl)
  simp only [parseContinentalDate, hsplit, hd, hm, hdv, hmv]
  simp [hse, hne, hd1, hd31, hm1, hm12]

/-- C8 witness: `"15-12"` parsed with current month January 2025 yields
15 December 2024. -/
theorem c8_witness :
    parseContinentalDate 2025 1 "15-12" = some ⟨2024, 12, 15⟩ := by
  have h := c8_continental_year_rollback 2025 1 "15-12" "15" "12" 15 12
    (by decide) (by decide) (by decide) (by decide) (by decide)
    (by decide) (by decide) (by decide) (by decide)
  rw [h]
  decide

/-- C9: in the text parser with bank `bcp`, a parsed line stores the last 6
characters of the extracted operation number when it has at least 6
characters, and the unchanged operation number otherwise. -/
theorem c9_bcp_truncation (impId : Nat) (line : String) (rec : ImportLine)
    (op0 : String)
    (hop : ((pySplit line ';').map fun f => pyStrip (stripQuotes f)).getD 5 ""
      = op0)
    (h : parseTxtTransaction .bcp impId line = some rec) :
    rec.operationNumber =
      if 6 ≤ op0.data.length then takeRightStr op0 6 else op0 := by
  simp only [parseTxtTransaction] at h
  rw [hop] at h
  split at h
  · split at h
    · exact absurd h (by simp)
    · rename_i d hd
      have hrec := (Option.some.injEq _ _).mp h
      subst hrec
      by_cases h6 : 6 ≤ op0.data.length
      · have hne : ¬ (op0 = "") := by
          intro he
          rw [he] at h6
          exact absurd h6 (by decide)
        have h6' : 6 ≤ op0.length := h6
        simp [h6, h6', hne]
      · have h6' : ¬ 6 ≤ op0.length := h6
        simp [h6, h6']
  · exact absurd h (by simp)

/-- C9 witness: a BCP text line with operation number `"000123456789"`
produces the stored operation number `"456789"`. -/
theorem c9_witness : lineW.operationNumber = "456789" := by
  have h := c9_bcp_truncation 5 txtLineW lineW "000123456789"
    (by decide) (by decide)
  rw [h]
  decide

/-- C10: calling `action_match_payments` on an import with no lines raises
the user error before the match records are cleared: the returned state is
the input state itself (matches and batch state untouched). -/
theorem c10_empty_lines_guard (payments : List Payment) (s : ImportState)
    (h : s.lines = []) :
    actionMatchPayments payments s = (s, some mustProcessFirstMsg) := by
  unfold actionMatchPayments
  rw [h]
  rfl

/-- C10 witness: an import with no lines but a leftover match keeps its
match set and state through the failed call. -/
theorem c10_witness :
    actionMatchPayments [payC1] sC10 = (sC10, some mustProcessFirstMsg)
      ∧ sC10.matchRecs ≠ [] ∧ sC10.state = .processed :=
  ⟨c10_empty_lines_guard [payC1] sC10 rfl, by decide, rfl⟩

/-- An empty operation number makes the operation-matching rule return a hit
before any payment field is examined. -/
theorem checkOperationMatch_empty (p : Payment) :
    checkOperationMatch p "" = true := rfl

/-- A pool-step iteration only ever adds matches tagged `exact`. -/
theorem poolStep_mem (impId : Nat) (line : ImportLine)
    (existing created : List MatchRec) (p : Payment) (y : MatchRec)
    (hy : y ∈ poolStep impId line existing created p) :
    y ∈ created ∨ y.matchType = MatchKind.exact := by
  simp only [poolStep] at hy
  by_cases h1 :
      (checkOperationMatch p line.operationNumber
        || (line.operationNumber == "")) = true
  · rw [if_pos h1] at hy
    by_cases h2 : existsMatch (existing ++ created) impId p.payId line.lineId
        = true
    · rw [if_pos h2] at hy
      exact Or.inl hy
    · rw [if_neg h2] at hy
      rcases List.mem_append.mp hy with h3 | h3
      · exact Or.inl h3
      · right
        have hy2 := List.mem_singleton.mp h3
        subst hy2
        by_cases hop : checkOperationMatch p line.operationNumber = true
        · simp [hop]
        · exfalso
          rcases Bool.or_eq_true_iff.mp h1 with h | h
          · exact hop h
          · have hemp : line.operationNumber = "" := by simpa using h
            exact hop (hemp ▸ checkOperationMatch_empty p)
  · rw [if_neg h1] at hy
    exact Or.inl hy

/-- C1 (amended): every Match created by the amount-matched pool step is
tagged `exact` — including those accepted solely because the transaction's
operation number is empty, since `_check_operation_match` returns a hit for
an empty operation number, making the `'partial'` branch of the pool step
unreachable. -/
theorem c1_pool_matches_exact (impId : Nat) (line : ImportLine)
    (pool : List Payment) (existing : List MatchRec) (m : MatchRec)
    (hm : m ∈ poolLoop impId line pool existing) :
    m.matchType = MatchKind.exact := by
  have key : ∀ (ps : List Payment) (created : List MatchRec),
      (∀ x ∈ created, x.matchType = MatchKind.exact) →
      ∀ x ∈ ps.foldl (poolStep impId line existing) created,
        x.matchType = MatchKind.exact := by
    intro ps
    induction ps with
    | nil =>
        intro created hc x hx
        exact hc x hx
    | cons p ps ih =>
        intro created hc x hx
        rw [List.foldl_cons] at hx
        refine ih _ ?_ x hx
        intro y hy
        rcases poolStep_mem impId line existing created p y hy with h | h
        · exact hc y h
        · exact h
  exact key pool [] (fun x hx => absurd hx (List.not_mem_nil x)) m hm

/-- C1 witness: the pool-step match created for `lineC1` (empty operation
number) and `payC1` is tagged `exact`. -/
theorem c1_witness :
    ({ importId := 5, lineId := 1, payId := 7,
       matchType := MatchKind.exact } : MatchRec).matchType
      = MatchKind.exact :=
  c1_pool_matches_exact 5 lineC1 [payC1] []
    { importId := 5, lineId := 1, payId := 7, matchType := MatchKind.exact }
    (by decide)

/-- C1 counterexample: a transaction with an empty operation number and an
amount-matched payment produce a Match tagged `exact`, where the claim
demands `partial`. -/
theorem c1_counterexample :
    findMatchingPayments 5 lineC1 [payC1] []
      = [{ importId := 5, lineId := 1, payId := 7,
           matchType := MatchKind.exact }]
      ∧ lineC1.operationNumber = ""
      ∧ payC1.amount = pyAbs lineC1.amount :=
  ⟨by decide, rfl, by decide⟩

/-- `pyAbs` is nonnegative. -/
theorem pyAbs_nonneg (q : ℚ) : 0 ≤ pyAbs q := by
  unfold pyAbs
  split <;> linarith

/-- `pyAbs` of a nonzero rational is positive. -/
theorem pyAbs_pos (q : ℚ) (h : ¬ q = 0) : 0 < pyAbs q := by
  rcases lt_or_gt_of_ne h with h1 | h1 <;> unfold pyAbs <;> split <;> linarith

/-- The cargo (debit) block never contributes a positive amount. -/
theorem cargoAmount_neg (c : CellVal) (h : ¬ cargoAmount c = 0) :
    cargoAmount c < 0 := by
  have habs : ∀ q : ℚ, ¬ (-(pyAbs q)) = 0 → -(pyAbs q) < 0 := by
    intro q hq
    rcases eq_or_lt_of_le (pyAbs_nonneg q) with h' | h'
    · exact absurd (by rw [← h']; ring) hq
    · linarith
  cases c with
  | empty => exact absurd rfl h
  | date d => exact absurd rfl h
  | num q =>
      simp only [cargoAmount] at h ⊢
      by_cases hq : (q == 0) = true
      · rw [if_pos hq] at h
        exact absurd rfl h
      · rw [if_neg hq] at h ⊢
        exact habs q h
  | str s =>
      simp only [cargoAmount] at h ⊢
      by_cases h1 : (!(s == "") && !(pyStrip s == "")) = true
      · rw [if_pos h1] at h ⊢
        by_cases h2 : (!(cleanMoneyStr s == "")) = true
        · rw [if_pos h2] at h ⊢
          generalize pyFloat? (cleanMoneyStr s) = res at h ⊢
          cases res with
          | none => exact absurd rfl h
          | some q => exact habs q h
        · rw [if_neg h2] at h
          exact absurd rfl h
      · rw [if_neg h1] at h
        exact absurd rfl h

/-- C6 (amended): in the generic spreadsheet path, a mapped debit cell with
a nonzero parsed value forces a strictly negative amount equal to that
contribution (minus the absolute debit value, as the second conjunct states
for numeric cells); when the debit side contributes nothing and the mapped
credit cell holds a nonzero numeric value `r`, the amount equals `r` itself
— the source applies no `abs` to credits, so the amount is positive exactly
when the credit value is. -/
theorem c6_amount_sign (row : Row) (cm : ColMapping) :
    (∀ i, cm.cargo? = some i → ¬ cargoAmount (getCell row i) = 0 →
       resolveAmount row cm = cargoAmount (getCell row i)
         ∧ resolveAmount row cm < 0)
    ∧ (∀ i q, cm.cargo? = some i → getCell row i = CellVal.num q → ¬ q = 0 →
        resolveAmount row cm = -(pyAbs q))
    ∧ (∀ j r,
        (cm.cargo? = none
          ∨ ∃ i, cm.cargo? = some i ∧ cargoAmount (getCell row i) = 0) →
        cm.abono? = some j → getCell row j = CellVal.num r → ¬ r = 0 →
        resolveAmount row cm = r) := by
  have part1 : ∀ i, cm.cargo? = some i → ¬ cargoAmount (getCell row i) = 0 →
      resolveAmount row cm = cargoAmount (getCell row i)
        ∧ resolveAmount row cm < 0 := by
    intro i hi h0
    have heq : resolveAmount row cm = cargoAmount (getCell row i) := by
      simp only [resolveAmount, hi]
      rw [if_neg (by simpa using h0)]
    exact ⟨heq, heq ▸ cargoAmount_neg _ h0⟩
  refine ⟨part1, ?_, ?_⟩
  · intro i q hi hc hq
    have he : cargoAmount (getCell row i) = -(pyAbs q) := by
      rw [hc]
      simp only [cargoAmount]
      rw [if_neg (by simpa using hq)]
    have h0 : ¬ cargoAmount (getCell row i) = 0 := by
      rw [he]
      intro hcon
      have hp := pyAbs_pos q hq
      have hz : pyAbs q = 0 := by linarith
      linarith
    rw [(part1 i hi h0).1, he]
  · intro j r hcargo hj hc hr
    have habr : abonoAmount (getCell row j) = r := by
      rw [hc]
      simp only [abonoAmount]
      rw [if_neg (by simpa using hr)]
    rcases hcargo with hnone | ⟨i, hi, h0⟩
    · simp only [resolveAmount, hnone, hj]
      simpa using habr
    · simp only [resolveAmount, hi, hj]
      rw [h0]
      simpa using habr

/-- C6 witness: a debit cell of `30` yields amount `-30 < 0`; with the debit
side empty, a credit cell of `7` yields amount `7`. -/
theorem c6_witness :
    (resolveAmount [CellVal.num 30] { cargo? := some 0 }
        = cargoAmount (getCell [CellVal.num 30] 0)
      ∧ resolveAmount [CellVal.num 30] { cargo? := some 0 } < 0)
      ∧ resolveAmount [CellVal.num 30] { cargo? := some 0 } = -(pyAbs 30)
      ∧ resolveAmount [CellVal.empty, CellVal.num 7]
          { cargo? := some 0, abono? := some 1 } = 7 :=
  ⟨(c6_amount_sign [CellVal.num 30] { cargo? := some 0 }).1 0 rfl (by decide),
   (c6_amount_sign [CellVal.num 30] { cargo? := some 0 }).2.1 0 30 rfl
     (by decide) (by decide),
   (c6_amount_sign [CellVal.empty, CellVal.num 7]
       { cargo? := some 0, abono? := some 1 }).2.2 1 7
     (Or.inr ⟨0, rfl, by decide⟩) rfl (by decide) (by decide)⟩

/-- C6 counterexample: a present, non-zero credit value of `-50` (with no
debit column) yields amount `-50`, which is not strictly positive — the
claim's credit clause fails. -/
theorem c6_counterexample :
    resolveAmount [CellVal.num (-50)] { abono? := some 0 } = -50
      ∧ ¬ (0 < resolveAmount [CellVal.num (-50)] { abono? := some 0 })
      ∧ getCell [CellVal.num (-50)] 0 = CellVal.num (-50) :=
  ⟨by decide, by decide, by decide⟩

/-- C7 (amended): in the Continental path, when the description column is
mapped at a non-zero index and the row's description cell is truthy, the row
is skipped exactly when its upper-cased, trimmed description *contains*
`"SALDO ANTERIOR"` (substring test, not equality); otherwise processing
proceeds to the creation logic. -/
theorem c7_saldo_skip (today : Date) (nowYear : Int) (nowMonth : Nat)
    (impId : Nat) (cm : ContMapping) (row : Row) (i : Nat) (c : CellVal)
    (hi : cm.descripcion? = some (i + 1))
    (hc : row.get? (i + 1) = some c) (ht : cellTruthy c = true) :
    continentalRowLine today nowYear nowMonth impId cm row
      = if strContains (pyUpper (pyStrip (cellStr c))) "SALDO ANTERIOR"
        then none
        else continentalRowCreate today nowYear nowMonth impId cm row := by
  simp only [continentalRowLine, hi, contCell?, hc, ht, if_true]

/-- C7 witness: a row whose description is exactly `"SALDO ANTERIOR"` is
skipped. -/
theorem c7_witness :
    continentalRowLine ⟨2025, 1, 10⟩ 2025 6 5 cmC7 rowC7exact = none := by
  have h := c7_saldo_skip ⟨2025, 1, 10⟩ 2025 6 5 cmC7 rowC7exact 1
    (CellVal.str "SALDO ANTERIOR") (by decide) (by decide) (by decide)
  rw [h]
  decide

/-- C7 counterexample: a row whose description is `"SALDO ANTERIOR 2024"`
— not exactly the marker — is nevertheless skipped, while the same row with
an ordinary description produces a Transaction. -/
theorem c7_counterexample :
    continentalRowLine ⟨2025, 1, 10⟩ 2025 6 5 cmC7 rowC7cx = none
      ∧ ¬ ((rowC7cx.get? 2).map cellStr = some "SALDO ANTERIOR")
      ∧ (continentalRowLine ⟨2025, 1, 10⟩ 2025 6 5 cmC7 rowC7ok).isSome
          = true :=
  ⟨by decide, by decide, by decide⟩

/-- C3 (amended): when `process()` fails with a user-input error, the error
is reported and the batch `state` is untouched (so it stays `draft`), but
the previously extracted Transaction set survives only the no-file error:
for undecodable content and for a missing spreadsheet backend the line set
has already been cleared by the time the error is raised. -/
theorem c3_user_input_errors (env : Env) (s : ImportState) :
    (s.fileData = none → actionProcessFile env s = (s, some noFileMsg))
    ∧ (∀ fb, s.fileData = some fb → s.fileType = FileType.txt →
        decodeUtf8 fb = none →
        actionProcessFile env s
          = ({ s with lines := [] },
             some ("Error al procesar el archivo TXT: " ++ decodeErrorMsg)))
    ∧ (∀ fb, s.fileData = some fb → s.fileType = FileType.excel →
        env.opAvail = false → env.xlAvail = false →
        actionProcessFile env s
          = ({ s with lines := [] }, some noBackendMsg)) := by
  refine ⟨?_, ?_, ?_⟩
  · intro h
    simp only [actionProcessFile, h]
  · intro fb hfb hft hdec
    simp only [actionProcessFile, hfb, parseDispatch, hft, processTxtFile,
      hdec]
  · intro fb hfb hft hop hxl
    simp only [actionProcessFile, hfb, parseDispatch, hft, processExcelFile,
      hop, hxl]
    simp

/-- C3 witness: the three error scenarios at concrete states — no file,
undecodable text bytes, missing spreadsheet backends; in each the state
stays `draft`. -/
theorem c3_witness :
    actionProcessFile envW sC3none = (sC3none, some noFileMsg)
      ∧ actionProcessFile envW sC3txt
          = ({ sC3txt with lines := [] },
             some ("Error al procesar el archivo TXT: " ++ decodeErrorMsg))
      ∧ actionProcessFile envNoLib sC3xl
          = ({ sC3xl with lines := [] }, some noBackendMsg) :=
  ⟨(c3_user_input_errors envW sC3none).1 rfl,
   (c3_user_input_errors envW sC3txt).2.1 FileBytes.binary rfl rfl rfl,
   (c3_user_input_errors envNoLib sC3xl).2.2 (FileBytes.xlsxData [[], []])
     rfl rfl rfl rfl⟩

/-- C3 counterexample: a batch with previously extracted lines and
undecodable bytes is *not* left unmodified by the failing `process()` call:
its Transaction set comes out empty. -/
theorem c3_counterexample :
    (actionProcessFile envW sC3txt).1.lines = []
      ∧ sC3txt.lines ≠ []
      ∧ (actionProcessFile envW sC3txt).2.isSome = true
      ∧ sC3txt.state = ImpState.draft
      ∧ (actionProcessFile envW sC3txt).1.state = ImpState.draft :=
  ⟨by decide, by decide, by decide, rfl, by decide⟩

/-- C4: a successful `process()` run is idempotent — running it again on
the resulting state (same file bytes, same environment) succeeds and leaves
the state, in particular its Transaction set, exactly as it was: the line
set is fully replaced by the re-parse of the unchanged content, never
appended to. -/
theorem c4_process_idempotent (env : Env) (s s1 : ImportState)
    (h : actionProcessFile env s = (s1, none)) :
    actionProcessFile env s1 = (s1, none) := by
  obtain ⟨sid, sname, sfd, sft, sbt, sst, slines, smr⟩ := s
  cases sfd with
  | none =>
      simp only [actionProcessFile] at h
      exact absurd (congrArg Prod.snd h) (by simp)
  | some fb =>
      simp only [actionProcessFile] at h
      cases hp : parseDispatch env sid sft sbt fb with
      | error e =>
          simp only [hp] at h
          exact absurd (congrArg Prod.snd h) (by simp)
      | ok ls =>
          simp only [hp] at h
          cases hls : ls.isEmpty with
          | true =>
              rw [hls] at h
              simp only [if_true] at h
              exact absurd (congrArg Prod.snd h) (by simp)
          | false =>
              rw [hls] at h
              simp only [Bool.false_eq_true, if_false] at h
              have hs1 := congrArg Prod.fst h
              subst hs1
              simp [actionProcessFile, hp, hls]

/-- C4 witness: processing the one-transaction BCP text file twice — the
second run returns exactly the state the first produced. -/
theorem c4_witness : actionProcessFile envW s1W = (s1W, none) :=
  c4_process_idempotent envW s0W s1W (by decide)

/-- A linear scan over `fuel` indices finds nothing when the predicate fails
everywhere in range. -/
theorem findFirstIdx_eq_none (p : Nat → Bool) :
    ∀ (fuel start : Nat), (∀ j, j < fuel → p (start + j) = false) →
      findFirstIdx p start fuel = none := by
  intro fuel
  induction fuel with
  | zero => intro start _; rfl
  | succ n ih =>
      intro start h
      unfold findFirstIdx
      rw [show p start = false from by simpa using h 0 (Nat.succ_pos n)]
      simp only [Bool.false_eq_true, if_false]
      refine ih (start + 1) (fun j hj => ?_)
      have := h (j + 1) (Nat.succ_lt_succ hj)
      simpa [show start + 1 + j = start + (j + 1) from by omega] using this

/-- A linear scan returns the first index in range where the predicate
holds. -/
theorem findFirstIdx_eq_some (p : Nat → Bool) :
    ∀ (fuel start j : Nat), j < fuel → (∀ i, i < j → p (start + i) = false) →
      p (start + j) = true → findFirstIdx p start fuel = some (start + j) := by
  intro fuel
  induction fuel with
  | zero => intro start j hj _ _; exact absurd hj (Nat.not_lt_zero j)
  | succ n ih =>
      intro start j hj hlt hp
      unfold findFirstIdx
      cases j with
      | zero =>
          rw [show p start = true from by simpa using hp]
          simp
      | succ k =>
          rw [show p start = false from by simpa using hlt 0 (Nat.succ_pos k)]
          simp only [Bool.false_eq_true, if_false]
          have hres := ih (start + 1) k (by omega)
            (fun i hi => by
              have := hlt (i + 1) (by omega)
              simpa [show start + 1 + i = start + (i + 1) from by omega]
                using this)
            (by simpa [show start + 1 + k = start + (k + 1) from by omega]
              using hp)
          rw [hres]
          congr 1
          omega

/-- Indexing inside a `take` prefix agrees with indexing the whole list. -/
theorem take_all_getD {α : Type} (q : α → Bool) (d : α) :
    ∀ (l : List α) (n j : Nat), (l.take n).all q = true → j < n →
      j < l.length → q (l.getD j d) = true := by
  intro l
  induction l with
  | nil => intro n j _ _ hj; exact absurd hj (by simp)
  | cons a t ih =>
      intro n j hall hjn hjl
      cases n with
      | zero => omega
      | succ n' =>
          simp only [List.take_succ_cons, List.all_cons, Bool.and_eq_true]
            at hall
          cases j with
          | zero => simpa using hall.1
          | succ j' =>
              simp only [List.getD_cons_succ]
              exact ih n' j' hall.2 (by omega) (by simpa using hjl)

/-- C5 (amended): for generic (non-Continental) sheets the openpyxl parser
examines the first 9 rows and the xlrd parser the first 10 for a cell whose
lower-cased text contains `"fecha"`; the first such row becomes the header,
and when none occurs in the scanned range parsing fails with the error
naming the missing marker. -/
theorem c5_header_scan (today : Date) (nowYear : Int) (nowMonth : Nat)
    (impId : Nat) (bank : BankType) (sheet : Sheet)
    (hb : bank ≠ BankType.continental) :
    ((sheet.take 9).all (fun row => !rowHasFechaOp row) = true →
       parseExcelOpenpyxl today nowYear nowMonth impId bank sheet
         = .error headerNotFoundMsg)
    ∧ ((sheet.take 10).all (fun row => !rowHasFechaXl row) = true →
       parseExcelXlrd today impId bank sheet = .error headerNotFoundMsg)
    ∧ strContains headerNotFoundMsg "fecha" = true
    ∧ (∀ k, k < min 9 sheet.length →
        (sheet.take k).all (fun row => !rowHasFechaOp row) = true →
        rowHasFechaOp (rowAt sheet k) = true →
        findHeaderRowOp sheet = some (k + 1))
    ∧ (∀ k, k < min 10 sheet.length →
        (sheet.take k).all (fun row => !rowHasFechaXl row) = true →
        rowHasFechaXl (rowAt sheet k) = true →
        findHeaderRowXl sheet = some k) := by
  have hbeq : (bank == BankType.continental) = false := by
    simpa using hb
  refine ⟨?_, ?_, by decide, ?_, ?_⟩
  · intro hall
    have hnone : findHeaderRowOp sheet = none := by
      unfold findHeaderRowOp
      refine findFirstIdx_eq_none _ _ _ (fun j hj => ?_)
      have hj' : j < min 9 sheet.length := by omega
      have := take_all_getD (fun row => !rowHasFechaOp row) [] sheet 9 j hall
        (by omega) (by omega)
      have hred : rowHasFechaOp (sheet.getD j []) = false := by
        simpa using this
      simpa [rowAt, Nat.add_sub_cancel_left] using hred
    simp only [parseExcelOpenpyxl, hbeq, Bool.false_eq_true, if_false, hnone]
  · intro hall
    have hnone : findHeaderRowXl sheet = none := by
      unfold findHeaderRowXl
      refine findFirstIdx_eq_none _ _ _ (fun j hj => ?_)
      have := take_all_getD (fun row => !rowHasFechaXl row) [] sheet 10 j hall
        (by omega) (by omega)
      have hred : rowHasFechaXl (sheet.getD j []) = false := by
        simpa using this
      simpa [rowAt] using hred
    simp only [parseExcelXlrd, hbeq, Bool.false_eq_true, if_false, hnone]
  · intro k hk hall hfecha
    unfold findHeaderRowOp
    have hres := findFirstIdx_eq_some
      (fun r => rowHasFechaOp (rowAt sheet (r - 1)))
      (min 10 (sheet.length + 1) - 1) 1 k (by omega)
      (fun i hi => by
        have := take_all_getD (fun row => !rowHasFechaOp row) [] sheet k i
          hall hi (by omega)
        simpa [rowAt, Nat.add_sub_cancel_left] using this)
      (by simpa [Nat.add_sub_cancel_left] using hfecha)
    rw [hres]
    congr 1
    omega
  · intro k hk hall hfecha
    unfold findHeaderRowXl
    have hres := findFirstIdx_eq_some (fun r => rowHasFechaXl (rowAt sheet r))
      (min 10 sheet.length) 0 k (by omega)
      (fun i hi => by
        have := take_all_getD (fun row => !rowHasFechaXl row) [] sheet k i
          hall hi (by omega)
        simpa [rowAt] using this)
      (by simpa using hfecha)
    simpa using hres

/-- C5 witness: a fecha-free sheet makes both parsers fail with the error
naming `fecha`; a sheet whose first `fecha` row is its second row gets
header row 2 (1-based, openpyxl) and row 1 (0-based, xlrd). -/
theorem c5_witness :
    parseExcelOpenpyxl ⟨2025, 1, 10⟩ 2025 1 5 BankType.nacion sheetC5no
        = .error headerNotFoundMsg
      ∧ parseExcelXlrd ⟨2025, 1, 10⟩ 5 BankType.nacion sheetC5no
          = .error headerNotFoundMsg
      ∧ findHeaderRowOp sheetC5pos = some 2
      ∧ findHeaderRowXl sheetC5pos = some 1 :=
  ⟨(c5_header_scan ⟨2025, 1, 10⟩ 2025 1 5 BankType.nacion sheetC5no
      (by decide)).1 (by decide),
   (c5_header_scan ⟨2025, 1, 10⟩ 2025 1 5 BankType.nacion sheetC5no
      (by decide)).2.1 (by decide),
   (c5_header_scan ⟨2025, 1, 10⟩ 2025 1 5 BankType.nacion sheetC5pos
      (by decide)).2.2.2.1 1 (by decide) (by decide) (by decide),
   (c5_header_scan ⟨2025, 1, 10⟩ 2025 1 5 BankType.nacion sheetC5pos
      (by decide)).2.2.2.2 1 (by decide) (by decide) (by decide)⟩

/-- C5 counterexample: a sheet whose only `fecha` cell sits in the 10th row
— inside the claim's 10-row window — still fails the openpyxl parse with
the missing-header error, because that path scans only 9 rows. -/
theorem c5_counterexample :
    parseExcelOpenpyxl ⟨2025, 1, 10⟩ 2025 1 5 BankType.nacion sheetC5cx
        = .error headerNotFoundMsg
      ∧ rowHasFechaOp (rowAt sheetC5cx 9) = true
      ∧ sheetC5cx.length = 11 :=
  ⟨by decide, by decide, by decide⟩

/-- Appending a fresh element preserves `Nodup`. -/
theorem nodup_append_singleton {α : Type} (l : List α) (a : α)
    (hl : l.Nodup) (ha : a ∉ l) : (l ++ [a]).Nodup := by
  rw [List.nodup_append]
  exact ⟨hl, List.nodup_singleton a,
    fun x hx hxa => ha (List.mem_singleton.mp hxa ▸ hx)⟩

/-- When the duplicate search comes back empty, the (line, payment) pair is
genuinely absent from the visible matches of the import. -/
theorem existsMatch_false_not_mem (acc : List MatchRec) (impId pid lid : Nat)
    (himp : ∀ m ∈ acc, m.importId = impId)
    (h : existsMatch acc impId pid lid = false) :
    (lid, pid) ∉ acc.map pairKey := by
  intro hmem
  rcases List.mem_map.mp hmem with ⟨m, hm, hkey⟩
  have h1 : m.lineId = lid := congrArg Prod.fst hkey
  have h2 : m.payId = pid := congrArg Prod.snd hkey
  have htrue : existsMatch acc impId pid lid = true := by
    unfold existsMatch
    refine List.any_eq_true.mpr ⟨m, hm, ?_⟩
    simp [himp m hm, h1, h2]
  simp [htrue] at h

/-- One pool-step iteration preserves the duplicate-freedom invariant of the
visible match set. -/
theorem poolStep_inv (impId : Nat) (line : ImportLine)
    (existing created : List MatchRec) (p : Payment)
    (h : MatchInv impId (existing ++ created)) :
    MatchInv impId (existing ++ poolStep impId line existing created p) := by
  simp only [poolStep]
  by_cases h1 : (checkOperationMatch p line.operationNumber
      || (line.operationNumber == "")) = true
  · rw [if_pos h1]
    by_cases h2 : existsMatch (existing ++ created) impId p.payId line.lineId
        = true
    · rw [if_pos h2]
      exact h
    · rw [if_neg h2]
      have hf : existsMatch (existing ++ created) impId p.payId line.lineId
          = false := by simpa using h2
      have hnot := existsMatch_false_not_mem (existing ++ created) impId
        p.payId line.lineId h.1 hf
      rw [← List.append_assoc]
      constructor
      · intro m hm
        rcases List.mem_append.mp hm with hm1 | hm1
        · exact h.1 m hm1
        · rw [List.mem_singleton.mp hm1]
      · rw [List.map_append]
        exact nodup_append_singleton _ _ h.2 hnot
  · rw [if_neg h1]
    exact h

/-- One fallback-step iteration preserves the invariant. -/
theorem fallbackStep_inv (impId : Nat) (line : ImportLine)
    (existing created : List MatchRec) (p : Payment)
    (h : MatchInv impId (existing ++ created)) :
    MatchInv impId (existing ++ fallbackStep impId line existing created p)
    := by
  simp only [fallbackStep]
  by_cases h1 : checkOperationMatch p line.operationNumber = true
  · rw [if_pos h1]
    by_cases h2 : existsMatch (existing ++ created) impId p.payId line.lineId
        = true
    · rw [if_pos h2]
      exact h
    · rw [if_neg h2]
      have hf : existsMatch (existing ++ created) impId p.payId line.lineId
          = false := by simpa using h2
      have hnot := existsMatch_false_not_mem (existing ++ created) impId
        p.payId line.lineId h.1 hf
      rw [← List.append_assoc]
      constructor
      · intro m hm
        rcases List.mem_append.mp hm with hm1 | hm1
        · exact h.1 m hm1
        · rw [List.mem_singleton.mp hm1]
      · rw [List.map_append]
        exact nodup_append_singleton _ _ h.2 hnot
  · rw [if_neg h1]
    exact h

/-- The pool loop preserves the invariant of the visible match set. -/
theorem poolLoop_inv (impId : Nat) (line : ImportLine) (pool : List Payment)
    (existing : List MatchRec) (h : MatchInv impId existing) :
    MatchInv impId (existing ++ poolLoop impId line pool existing) := by
  have key : ∀ (ps : List Payment) (created : List MatchRec),
      MatchInv impId (existing ++ created) →
      MatchInv impId (existing ++ ps.foldl (poolStep impId line existing)
        created) := by
    intro ps
    induction ps with
    | nil => intro created hc; exact hc
    | cons p pss ih =>
        intro created hc
        rw [List.foldl_cons]
        exact ih _ (poolStep_inv impId line existing created p hc)
  exact key pool [] (by simpa using h)

/-- The fallback loop preserves the invariant. -/
theorem fallbackLoop_inv (impId : Nat) (line : ImportLine)
    (active : List Payment) (existing : List MatchRec)
    (h : MatchInv impId existing) :
    MatchInv impId (existing ++ fallbackLoop impId line active existing) := by
  have key : ∀ (ps : List Payment) (created : List MatchRec),
      MatchInv impId (existing ++ created) →
      MatchInv impId (existing ++ ps.foldl (fallbackStep impId line existing)
        created) := by
    intro ps
    induction ps with
    | nil => intro created hc; exact hc
    | cons p pss ih =>
        intro created hc
        rw [List.foldl_cons]
        exact ih _ (fallbackStep_inv impId line existing created p hc)
  exact key active [] (by simpa using h)

/-- The per-line engine body (pool step plus conditional fallback over any
candidate lists) preserves the invariant. -/
theorem findLike_inv (impId : Nat) (line : ImportLine)
    (pool active : List Payment) (existing : List MatchRec)
    (h : MatchInv impId existing) :
    MatchInv impId (existing ++
      (if (poolLoop impId line pool existing).length == 0
            && !(line.operationNumber == "") then
         poolLoop impId line pool existing
           ++ fallbackLoop impId line active
                (existing ++ poolLoop impId line pool existing)
       else poolLoop impId line pool existing)) := by
  by_cases hc : ((poolLoop impId line pool existing).length == 0
      && !(line.operationNumber == "")) = true
  · rw [if_pos hc, ← List.append_assoc]
    exact fallbackLoop_inv impId line active _
      (poolLoop_inv impId line pool existing h)
  · rw [if_neg hc]
    exact poolLoop_inv impId line pool existing h

/-- `_find_matching_payments` preserves the invariant. -/
theorem findMatchingPayments_inv (impId : Nat) (line : ImportLine)
    (payments : List Payment) (existing : List MatchRec)
    (h : MatchInv impId existing) :
    MatchInv impId
      (existing ++ findMatchingPayments impId line payments existing) :=
  findLike_inv impId line _ _ existing h

/-- The whole per-line fold of `action_match_payments` preserves the
invariant. -/
theorem matchFold_inv (impId : Nat) (payments : List Payment) :
    ∀ (lines : List ImportLine) (acc : List MatchRec),
      MatchInv impId acc →
      MatchInv impId (lines.foldl
        (fun a line => a ++ findMatchingPayments impId line payments a) acc)
    := by
  intro lines
  induction lines with
  | nil => intro acc h; exact h
  | cons l ls ih =>
      intro acc h
      rw [List.foldl_cons]
      exact ih _ (findMatchingPayments_inv impId l payments acc h)

/-- Folding list-append over a function is `flatMap`. -/
theorem foldl_append_eq_flatMap {α β : Type} (f : α → List β) :
    ∀ (l : List α) (init : List β),
      l.foldl (fun acc x => acc ++ f x) init = init ++ l.flatMap f := by
  intro l
  induction l with
  | nil => intro init; simp
  | cons a t ih =>
      intro init
      rw [List.foldl_cons, ih, List.flatMap_cons, List.append_assoc]

/-- Every match the wizard creates for a line carries that line's id and the
wizard's import id. -/
theorem findAdvancedMatches_fields (impId : Nat) (w : WizardCfg)
    (line : ImportLine) (payments : List Payment) :
    ∀ m ∈ findAdvancedMatches impId w line payments,
      m.lineId = line.lineId ∧ m.importId = impId := by
  have key : ∀ (ps : List Payment) (acc : List MatchRec),
      (∀ m ∈ acc, m.lineId = line.lineId ∧ m.importId = impId) →
      ∀ m ∈ ps.foldl (fun acc p =>
          if calculateMatchScore w line p > 0 then
            acc ++ [{ importId := impId, lineId := line.lineId,
                      payId := p.payId,
                      matchType :=
                        if calculateMatchScore w line p ≥ 100 then
                          MatchKind.exact
                        else MatchKind.inexact }]
          else acc) acc,
        m.lineId = line.lineId ∧ m.importId = impId := by
    intro ps
    induction ps with
    | nil => intro acc hc m hm; exact hc m hm
    | cons p pss ih =>
        intro acc hc m hm
        rw [List.foldl_cons] at hm
        refine ih _ ?_ m hm
        intro y hy
        by_cases hsc : calculateMatchScore w line p > 0
        · rw [if_pos hsc] at hy
          rcases List.mem_append.mp hy with h1 | h1
          · exact hc y h1
          · rw [List.mem_singleton.mp h1]
            exact ⟨rfl, rfl⟩
        · rw [if_neg hsc] at hy
          exact hc y hy
  exact key payments [] (fun m hm => absurd hm (List.not_mem_nil m))

/-- The payment ids of a wizard line-block form a sublist of the candidate
payments' ids (each payment contributes at most one match, in order). -/
theorem findAdvancedMatches_payIds (impId : Nat) (w : WizardCfg)
    (line : ImportLine) :
    ∀ (ps : List Payment) (acc : List MatchRec),
      List.Sublist
        ((ps.foldl (fun acc p =>
          if calculateMatchScore w line p > 0 then
            acc ++ [{ importId := impId, lineId := line.lineId,
                      payId := p.payId,
                      matchType :=
                        if calculateMatchScore w line p ≥ 100 then
                          MatchKind.exact
                        else MatchKind.inexact }]
          else acc) acc).map (fun m => m.payId))
        (acc.map (fun m => m.payId) ++ ps.map (fun p => p.payId)) := by
  intro ps
  induction ps with
  | nil => intro acc; simp
  | cons p pss ih =>
      intro acc
      rw [List.foldl_cons]
      refine (ih _).trans ?_
      by_cases hsc : calculateMatchScore w line p > 0
      · rw [if_pos hsc]
        rw [List.map_append, List.append_assoc]
        simp
      · rw [if_neg hsc]
        exact List.Sublist.append_left (List.sublist_cons_self _ _) _

/-- Pair keys of a block with a constant line id inherit `Nodup` from the
payment ids. -/
theorem keys_nodup_of_payIds_nodup :
    ∀ (bl : List MatchRec) (lid : Nat),
      (∀ m ∈ bl, m.lineId = lid) →
      (bl.map (fun m => m.payId)).Nodup → (bl.map pairKey).Nodup := by
  intro bl
  induction bl with
  | nil => intro lid _ _; simp
  | cons m t ih =>
      intro lid hl hn
      simp only [List.map_cons, List.nodup_cons] at hn ⊢
      refine ⟨?_, ih lid (fun x hx => hl x (List.mem_cons_of_mem _ hx)) hn.2⟩
      intro hmem
      rcases List.mem_map.mp hmem with ⟨m', hm', hk⟩
      apply hn.1
      have hpay : m'.payId = m.payId := congrArg Prod.snd hk
      exact List.mem_map.mpr ⟨m', hm', hpay⟩

/-- The keys of one wizard line-block are duplicate-free when the candidate
payments are. -/
theorem findAdvancedMatches_keys_nodup (impId : Nat) (w : WizardCfg)
    (line : ImportLine) (payments : List Payment)
    (hp : (payments.map (fun p => p.payId)).Nodup) :
    ((findAdvancedMatches impId w line payments).map pairKey).Nodup := by
  have hsub : List.Sublist
      ((findAdvancedMatches impId w line payments).map (fun m => m.payId))
      (payments.map (fun p => p.payId)) := by
    have := findAdvancedMatches_payIds impId w line payments []
    simpa [findAdvancedMatches] using this
  exact keys_nodup_of_payIds_nodup _ line.lineId
    (fun m hm => (findAdvancedMatches_fields impId w line payments m hm).1)
    (hsub.nodup hp)

/-- Across lines with distinct ids, the concatenated wizard blocks have
duplicate-free keys. -/
theorem bind_keys_nodup (impId : Nat) (w : WizardCfg) (pays : List Payment)
    (hp : (pays.map (fun p => p.payId)).Nodup) :
    ∀ (lines : List ImportLine), (lines.map (fun l => l.lineId)).Nodup →
      ((lines.flatMap (fun line => findAdvancedMatches impId w line pays)).map
        pairKey).Nodup := by
  intro lines
  induction lines with
  | nil => intro _; simp
  | cons l ls ih =>
      intro hn
      simp only [List.map_cons, List.nodup_cons] at hn
      rw [List.flatMap_cons, List.map_append, List.nodup_append]
      refine ⟨findAdvancedMatches_keys_nodup impId w l pays hp, ih hn.2, ?_⟩
      intro k hk1 hk2
      rcases List.mem_map.mp hk1 with ⟨m, hm, hkm⟩
      rcases List.mem_map.mp hk2 with ⟨m', hm', hkm'⟩
      rcases List.mem_flatMap.mp hm' with ⟨l', hl', hml'⟩
      have h1 := (findAdvancedMatches_fields impId w l pays m hm).1
      have h2 := (findAdvancedMatches_fields impId w l' pays m' hml').1
      apply hn.1
      have hkey : m.lineId = m'.lineId := by
        have := (congrArg Prod.fst hkm).trans (congrArg Prod.fst hkm').symm
        exact this
      rw [← h1, hkey, h2]
      exact List.mem_map.mpr ⟨l', hl', rfl⟩

/-- C2: after any run of the engines, no two match records share a
(transaction line, payment) pair — unconditionally for a successful run of
the default engine (whose duplicate search guards every creation), and for
the advanced wizard whenever the batch's lines and the candidate payments
have distinct record ids, as database record sets do. -/
theorem c2_no_duplicate_matches :
    (∀ (payments : List Payment) (s : ImportState),
       (actionMatchPayments payments s).2 = none →
       (((actionMatchPayments payments s).1.matchRecs).map pairKey).Nodup)
    ∧ (∀ (w : WizardCfg) (payments : List Payment) (s : ImportState),
       (s.lines.map (fun l => l.lineId)).Nodup →
       (payments.map (fun p => p.payId)).Nodup →
       (((actionAdvancedMatch w payments s).matchRecs).map pairKey).Nodup)
    := by
  constructor
  · intro payments s h
    unfold actionMatchPayments at h ⊢
    by_cases hl : s.lines.isEmpty
    · rw [if_pos hl] at h
      exact absurd h (by simp)
    · rw [if_neg hl] at h ⊢
      have hinv := matchFold_inv s.importId payments s.lines []
        ⟨fun m hm => absurd hm (List.not_mem_nil m), by simp⟩
      exact hinv.2
  · intro w payments s hl hp
    have hp' : ((payments.filter (wizardPaymentFilter w)).map
        (fun p => p.payId)).Nodup :=
      ((List.filter_sublist _).map _).nodup hp
    show ((s.lines.foldl
        (fun acc line => acc ++ findAdvancedMatches s.importId w line
          (payments.filter (wizardPaymentFilter w))) []).map pairKey).Nodup
    rw [foldl_append_eq_flatMap]
    simpa using bind_keys_nodup s.importId w _ hp' s.lines hl

/-- C2 witness: both engines run on a concrete two-line import over two
posted payments produce duplicate-free (line, payment) keys. -/
theorem c2_witness :
    (((actionMatchPayments [payC1, payC2] sC2).1.matchRecs).map
        pairKey).Nodup
      ∧ (((actionAdvancedMatch wC2 [payC1, payC2] sC2).matchRecs).map
          pairKey).Nodup :=
  ⟨c2_no_duplicate_matches.1 [payC1, payC2] sC2 (by decide),
   c2_no_duplicate_matches.2 wC2 [payC1, payC2] sC2 (by decide) (by decide)⟩

end PeruanitaBank
